import Mathlib

/-!
Shallow embedding of `src/app/main.py` (an OOP calculator with history
persistence and observers) and proofs about its specification claims.

Modelling conventions:
* Python floats are modelled as `ℚ` (`Rat`): the arithmetic the claims talk
  about is exact on the inputs considered.
* Python exceptions are an explicit error channel `Except PyError _`.
  A `ValueError` and an `AttributeError` are distinguished because the code
  raises the former deliberately (division by zero) while the latter arises
  from dereferencing Python `None` (`NoneType` has no attribute `calculate`).
* Python `None` for a missing operation object is `Option Op`'s `none`.
* The durable CSV file is `Option (List Row)`: `none` means the file does not
  exist; `some rows` is its parsed tabular content, one `Row` per line.
* Mutation of `self._history` / the file is explicit state passing on
  `CalcState`; an operation that raises mid-way returns the state reached so
  far together with the error, exactly as the Python mutations persist when an
  exception propagates.
-/

namespace Midtermcalc

/-- Python exception values raised by the program. -/
inductive PyError where
  | valueError (msg : String)
  | attributeError (msg : String)
  deriving DecidableEq, Repr

/-- The closed set of operation classes: `Addition`, `Subtraction`,
`Multiplication`, `Division` (subclasses of `TemplateOperation`). -/
inductive Op where
  | addition
  | subtraction
  | multiplication
  | division
  deriving DecidableEq, Repr

/-- `self.__class__.__name__` for each operation object. -/
def Op.className : Op → String
  | .addition => "Addition"
  | .subtraction => "Subtraction"
  | .multiplication => "Multiplication"
  | .division => "Division"

/-- `execute(a, b)` of each `TemplateOperation` subclass.  `Division.execute`
raises `ValueError` when `b == 0`, before computing anything. -/
def Op.execute : Op → ℚ → ℚ → Except PyError ℚ
  | .addition, a, b => .ok (a + b)
  | .subtraction, a, b => .ok (a - b)
  | .multiplication, a, b => .ok (a * b)
  | .division, a, b =>
      if b = 0 then .error (.valueError "Division by zero is not allowed.")
      else .ok (a / b)

/-- `TemplateOperation.calculate`: validate inputs, then execute, then log.
In this embedding operands are already numbers (`ℚ`), so `validate_inputs`
never raises; logging has no effect on the result. -/
def Op.calculate (op : Op) (a b : ℚ) : Except PyError ℚ :=
  op.execute a b

/-- Python's `str.lower()` on the ASCII names this program uses: lowercase
every character. -/
def pyLower (s : String) : String := String.mk (s.data.map Char.toLower)

/-- `OperationFactory.create_operation`: lowercases the name and looks it up
in the map with keys "add", "subtract", "multiply", "divide";
`dict.get` yields Python `None` (here `Option.none`) for any other key. -/
def OperationFactory.create_operation (operation : String) : Option Op :=
  match pyLower operation with
  | "add" => some .addition
  | "subtract" => some .subtraction
  | "multiply" => some .multiplication
  | "divide" => some .division
  | _ => none

/-- The dataclass `Calculation`: an operation reference (which is Python
`None` for rows loaded with an unresolvable name), and two operands. -/
structure Calculation where
  operation : Option Op
  operand1 : ℚ
  operand2 : ℚ
  deriving DecidableEq, Repr

/-- The expression `calc.operation.calculate(calc.operand1, calc.operand2)`
used by `Calculation.__str__` and by `save_history` to (re)derive the result.
When `operation` is Python `None`, the attribute access raises
`AttributeError`. -/
def Calculation.recomputeResult (c : Calculation) : Except PyError ℚ :=
  match c.operation with
  | none => .error (.attributeError "NoneType object has no attribute calculate")
  | some op => op.calculate c.operand1 c.operand2

/-- `calc.operation.__class__.__name__`: Python `None` has class name
`NoneType`. -/
def Calculation.operationClassName (c : Calculation) : String :=
  match c.operation with
  | none => "NoneType"
  | some op => op.className

/-- One row of the durable CSV file, columns in order:
Operation, Operand1, Operand2, Result. -/
structure Row where
  Operation : String
  Operand1 : ℚ
  Operand2 : ℚ
  Result : ℚ
  deriving DecidableEq, Repr

/-- The list comprehension inside `save_history`: for each record, build the
row with the operation class name, the operands, and the result recomputed by
`calc.operation.calculate(...)`.  The first record whose recomputation raises
aborts the whole comprehension with that exception. -/
def saveRows : List Calculation → Except PyError (List Row)
  | [] => .ok []
  | c :: rest =>
      match c.recomputeResult with
      | .error e => .error e
      | .ok r =>
          match saveRows rest with
          | .error e => .error e
          | .ok rs =>
              .ok ({ Operation := c.operationClassName, Operand1 := c.operand1,
                     Operand2 := c.operand2, Result := r } :: rs)

/-- An observer object: an identity plus its `update` method.  The claims
quantify over arbitrary observers, whose `update` can raise. -/
structure Observer where
  id : ℕ
  update : Calculation → Except PyError Unit

/-- The concrete `HistoryObserver.update`: logs the f-string
`"Observer: New calculation added -> {calculation}"`, whose interpolation
calls `Calculation.__str__`, which recomputes the result — so this observer
raises exactly when the new record's result does not recompute. -/
def HistoryObserver.update (c : Calculation) : Except PyError Unit :=
  match c.recomputeResult with
  | .error e => .error e
  | .ok _ => .ok ()

/-- The `HistoryObserver` instance registered by the REPL. -/
def historyObserver : Observer :=
  { id := 0, update := HistoryObserver.update }

/-- The mutable state of a `CalculatorWithObserver` together with its durable
file: `_history`, `_observers`, and the content of `history_file`
(`none` = the file does not exist). -/
structure CalcState where
  history : List Calculation
  observers : List Observer
  file : Option (List Row)

/-- `CalculatorWithObserver.notify_observers`: a plain `for` loop over
`self._observers`.  Each iteration calls `observer.update(calculation)` and
then executes `logging.debug(f"Notified observer about: {calculation}")`,
whose interpolation calls `Calculation.__str__`, which recomputes the
record's result and thus raises when the result does not recompute.  There is
no exception handler, so the first raise — from an observer's `update` or
from the logging interpolation right after it — stops the loop and
propagates.  Returns the ids of the observers whose `update` was invoked, in
order, together with the propagated exception if any. -/
def CalculatorWithObserver.notify_observers :
    List Observer → Calculation → List ℕ × Option PyError
  | [], _ => ([], none)
  | o :: rest, c =>
      match o.update c with
      | .error e => ([o.id], some e)
      | .ok _ =>
          match c.recomputeResult with
          | .error e => ([o.id], some e)
          | .ok _ =>
              let (ids, err) := CalculatorWithObserver.notify_observers rest c
              (o.id :: ids, err)

/-- `CalculatorWithObserver.save_history`: serialize every record (recomputing
each result) and rewrite the whole durable file with those rows.  If a
recomputation raises, the exception propagates and the file is untouched. -/
def CalculatorWithObserver.save_history (s : CalcState) :
    Except PyError CalcState :=
  match saveRows s.history with
  | .error e => .error e
  | .ok rows => .ok { s with file := some rows }

/-- `CalculatorWithObserver.load_history`: if the file does not exist, return
`[]`; otherwise, for each row, build a `Calculation` binding
`OperationFactory.create_operation(row["Operation"].lower())` — Python `None`
when the stored name does not resolve — and the two operands.  The Result
column is not read back. -/
def CalculatorWithObserver.load_history (file : Option (List Row)) :
    List Calculation :=
  match file with
  | none => []
  | some rows =>
      rows.map fun row =>
        { operation := OperationFactory.create_operation (pyLower row.Operation),
          operand1 := row.Operand1, operand2 := row.Operand2 }

/-- `CalculatorWithObserver.perform_operation`: construct the record, append
it to `_history`, notify the observers, execute
`logging.debug(f"Performed operation: {calculation}")` — whose interpolation
calls `Calculation.__str__` and hence recomputes the new record's result,
raising when it does not recompute — then save the history, and finally
return `operation.calculate(a, b)`.  Each step can raise; a raise propagates
but the mutations already made (the append, a completed file write) remain. -/
def CalculatorWithObserver.perform_operation (s : CalcState) (op : Op)
    (a b : ℚ) : CalcState × Except PyError ℚ :=
  let c : Calculation := { operation := some op, operand1 := a, operand2 := b }
  let s1 : CalcState := { s with history := s.history ++ [c] }
  match (CalculatorWithObserver.notify_observers s1.observers c).2 with
  | some e => (s1, .error e)
  | none =>
      match c.recomputeResult with
      | .error e => (s1, .error e)
      | .ok _ =>
          match CalculatorWithObserver.save_history s1 with
          | .error e => (s1, .error e)
          | .ok s2 =>
              match op.calculate a b with
              | .error e => (s2, .error e)
              | .ok r => (s2, .ok r)

/-- `CalculatorWithObserver.load_history_manually`: logs and then
`return self.load_history()` — the result is returned to the caller and no
field of the calculator is assigned. -/
def CalculatorWithObserver.load_history_manually (s : CalcState) :
    List Calculation × CalcState :=
  (CalculatorWithObserver.load_history s.file, s)

/-- Outcome of one arithmetic line of the REPL. -/
inductive DispatchOutcome where
  | ok (r : ℚ)
  | unknownOperation (name : String)
  | raised (e : PyError)
  deriving Repr

/-- The arithmetic branch of the REPL loop in `calculator()`: resolve the
operation name through `OperationFactory.create_operation`; if it is Python
`None` ("falsy"), print the unknown-operation message and perform nothing;
otherwise call `perform_operation` (a raised `ValueError` is caught and
reported by the surrounding `try`). -/
def replDispatch (s : CalcState) (name : String) (a b : ℚ) :
    CalcState × DispatchOutcome :=
  match OperationFactory.create_operation name with
  | none => (s, .unknownOperation name)
  | some op =>
      match CalculatorWithObserver.perform_operation s op a b with
      | (s', .error e) => (s', .raised e)
      | (s', .ok r) => (s', .ok r)

/-- The REPL's `clear` command: `calc._history.clear()` followed by
`calc.save_history()`. -/
def replClear (s : CalcState) : Except PyError CalcState :=
  CalculatorWithObserver.save_history { s with history := [] }

/-! ## Helper lemmas -/

lemma saveRows_append (h : List Calculation) (c : Calculation) (rows : List Row)
    (r : ℚ) (hh : saveRows h = .ok rows) (hc : c.recomputeResult = .ok r) :
    saveRows (h ++ [c]) =
      .ok (rows ++ [{ Operation := c.operationClassName, Operand1 := c.operand1,
                      Operand2 := c.operand2, Result := r }]) := by
  induction h generalizing rows with
  | nil =>
      simp only [saveRows, Except.ok.injEq] at hh
      subst hh
      simp [saveRows, hc]
  | cons x xs ih =>
      cases hx : x.recomputeResult with
      | error e => simp [saveRows, hx] at hh
      | ok rx =>
          cases hxs : saveRows xs with
          | error e => simp [saveRows, hx, hxs] at hh
          | ok rs =>
              simp only [saveRows, hx, hxs, Except.ok.injEq] at hh
              subst hh
              simp [saveRows, hx, ih rs hxs]

lemma perform_ok (s : CalcState) (op : Op) (a b r : ℚ) (rows : List Row)
    (hobs : s.observers = [historyObserver])
    (hsave : saveRows s.history = .ok rows)
    (hexec : op.calculate a b = .ok r) :
    CalculatorWithObserver.perform_operation s op a b =
      ({ s with history := s.history ++ [⟨some op, a, b⟩],
                file := some (rows ++ [{ Operation := op.className, Operand1 := a,
                                         Operand2 := b, Result := r }]) }, .ok r) := by
  have hrec : (Calculation.mk (some op) a b).recomputeResult = .ok r := by
    simpa [Calculation.recomputeResult] using hexec
  have hsr := saveRows_append s.history ⟨some op, a, b⟩ rows r hsave hrec
  simp [CalculatorWithObserver.perform_operation,
        CalculatorWithObserver.notify_observers, historyObserver,
        HistoryObserver.update, hrec, hobs,
        CalculatorWithObserver.save_history, hsr, hexec,
        Calculation.operationClassName]

/-! ## Claims -/

/-- C3: for every operation name that does not resolve in the registry, the
REPL's arithmetic dispatch reports an unknown-operation outcome and leaves
the calculator state (in particular the history) untouched: no record is
appended, no computation is attempted. -/
theorem C3_unknown_operation_no_record (s : CalcState) (name : String)
    (a b : ℚ) (h : OperationFactory.create_operation name = none) :
    replDispatch s name a b = (s, .unknownOperation name) := by
  simp [replDispatch, h]

/-- Witness for C3 at the concrete input "bogus" with operands 1 and 2. -/
theorem C3_witness :
    replDispatch { history := [], observers := [], file := none } "bogus" 1 2 =
      ({ history := [], observers := [], file := none },
        .unknownOperation "bogus") :=
  C3_unknown_operation_no_record _ "bogus" 1 2 (by decide)

/-- C7: save is idempotent on the durable store — if `save_history` succeeds,
running it again with no intervening append succeeds and leaves the state
(in particular the file content) byte-for-byte identical. -/
theorem C7_save_idempotent (s s1 : CalcState)
    (h : CalculatorWithObserver.save_history s = .ok s1) :
    CalculatorWithObserver.save_history s1 = .ok s1 := by
  unfold CalculatorWithObserver.save_history at h ⊢
  cases hr : saveRows s.history with
  | error e => rw [hr] at h; cases h
  | ok rows =>
      rw [hr] at h
      cases h
      simp [hr]

/-- Witness for C7 at a concrete state. -/
theorem C7_witness :
    CalculatorWithObserver.save_history
        { history := [], observers := [], file := some [] } =
      .ok { history := [], observers := [], file := some [] } :=
  C7_save_idempotent { history := [], observers := [], file := none } _ (by rfl)

/-- C8: when the durable history file does not exist, `load_history` returns
the empty sequence of records (and raises no error: in the code the only
error sources are in the branch that reads an existing file). -/
theorem C8_load_no_file_empty : CalculatorWithObserver.load_history none = [] :=
  rfl

/-- C10: `load_history_manually` returns exactly the records read from the
durable file and modifies no field of the calculator state: history,
observers and file content are all unchanged. -/
theorem C10_manual_load_frame (s : CalcState) :
    (CalculatorWithObserver.load_history_manually s).1 =
      CalculatorWithObserver.load_history s.file ∧
    (CalculatorWithObserver.load_history_manually s).2.history = s.history ∧
    (CalculatorWithObserver.load_history_manually s).2.observers = s.observers ∧
    (CalculatorWithObserver.load_history_manually s).2.file = s.file :=
  ⟨rfl, rfl, rfl, rfl⟩

/-- Inverting a successful `save_history`. -/
lemma save_history_ok {s s2 : CalcState}
    (h : CalculatorWithObserver.save_history s = .ok s2) :
    ∃ rows, saveRows s.history = .ok rows ∧ s2 = { s with file := some rows } := by
  unfold CalculatorWithObserver.save_history at h
  cases hr : saveRows s.history with
  | error e => rw [hr] at h; cases h
  | ok rows => rw [hr] at h; cases h; exact ⟨rows, rfl, rfl⟩

/-- Inverting a successful `perform_operation`: the save step must have
succeeded, and the final state is the saved one. -/
lemma perform_ok_inv {s : CalcState} {op : Op} {a b : ℚ} {s' : CalcState}
    {r : ℚ}
    (h : CalculatorWithObserver.perform_operation s op a b = (s', .ok r)) :
    CalculatorWithObserver.save_history
        { s with history := s.history ++ [⟨some op, a, b⟩] } = .ok s' := by
  simp only [CalculatorWithObserver.perform_operation] at h
  cases hn : (CalculatorWithObserver.notify_observers s.observers
      ⟨some op, a, b⟩).2 with
  | some e => rw [hn] at h; simp at h
  | none =>
      rw [hn] at h
      cases hrec : (Calculation.mk (some op) a b).recomputeResult with
      | error e => rw [hrec] at h; simp at h
      | ok r0 =>
          rw [hrec] at h
          cases hsv : CalculatorWithObserver.save_history
              { s with history := s.history ++ [⟨some op, a, b⟩] } with
          | error e => rw [hsv] at h; simp at h
          | ok s2 =>
              rw [hsv] at h
              cases hc : op.calculate a b with
              | error e => rw [hc] at h; simp at h
              | ok r2 =>
                  rw [hc] at h
                  injection h with h1 h2
                  subst h1
                  rfl

/-- An observer whose `update` raises on every record. -/
def obsRaising : Observer :=
  { id := 1, update := fun _ => .error (.valueError "observer failure") }

/-- An observer whose `update` always succeeds. -/
def obsBenign : Observer := { id := 2, update := fun _ => .ok () }

/-- A second always-succeeding observer. -/
def obsBenign2 : Observer := { id := 3, update := fun _ => .ok () }

/-- C1 (code_bug evidence): the persistence round trip loses the operation
identity.  Saving the one-record history `[Calculation(Addition, 2, 3)]`
writes the row `("Addition", 2, 3, 5)`; loading it back resolves
`"Addition".lower() = "addition"`, which is not a registry key ("add" is), so
the loaded record is bound to Python `None`, and recomputing its result
raises `AttributeError` instead of yielding `5`. -/
theorem C1_roundtrip_loses_operation :
    saveRows [⟨some Op.addition, 2, 3⟩] =
      .ok [{ Operation := "Addition", Operand1 := 2, Operand2 := 3,
             Result := 5 }] ∧
    CalculatorWithObserver.load_history
        (some [{ Operation := "Addition", Operand1 := 2, Operand2 := 3,
                 Result := 5 }]) =
      [⟨none, 2, 3⟩] ∧
    Calculation.recomputeResult ⟨none, 2, 3⟩ =
      .error (.attributeError "NoneType object has no attribute calculate") := by
  refine ⟨?_, ?_, rfl⟩
  · norm_num [saveRows, Calculation.recomputeResult, Op.calculate, Op.execute,
      Calculation.operationClassName, Op.className]
  · have hco : OperationFactory.create_operation (pyLower "Addition") = none :=
      by decide
    simp [CalculatorWithObserver.load_history, hco]

/-- C2 (amended): performing divide with second operand 0 under the REPL's
observer configuration raises the division-by-zero `ValueError`, but only
after the record has been appended: the history grows by exactly that record
and the durable file is left untouched (the save step is never reached). -/
theorem C2_divide_by_zero_appends_then_raises (s : CalcState) (a : ℚ)
    (hobs : s.observers = [historyObserver]) :
    CalculatorWithObserver.perform_operation s .division a 0 =
      ({ s with history := s.history ++ [⟨some .division, a, 0⟩] },
        .error (.valueError "Division by zero is not allowed.")) := by
  simp [CalculatorWithObserver.perform_operation,
        CalculatorWithObserver.notify_observers, historyObserver,
        HistoryObserver.update, Calculation.recomputeResult, Op.calculate,
        Op.execute, hobs]

/-- C2 counterexample to the claim as stated: on a fresh calculator,
`perform(divide, 10, 0)` raises the division-by-zero error yet the history
length afterwards is 1, not 0 — a record was appended. -/
theorem C2_counterexample :
    ((CalculatorWithObserver.perform_operation
        { history := [], observers := [historyObserver], file := none }
        .division 10 0).1.history.length = 1) ∧
    ((CalculatorWithObserver.perform_operation
        { history := [], observers := [historyObserver], file := none }
        .division 10 0).2 =
      .error (.valueError "Division by zero is not allowed.")) := by
  constructor <;>
    simp [CalculatorWithObserver.perform_operation,
          CalculatorWithObserver.notify_observers, historyObserver,
          HistoryObserver.update, Calculation.recomputeResult, Op.calculate,
          Op.execute]

/-- Witness for C2's amended theorem at `a = 10` on a fresh calculator. -/
theorem C2_witness :
    CalculatorWithObserver.perform_operation
        { history := [], observers := [historyObserver], file := none }
        .division 10 0 =
      ({ history := [⟨some .division, 10, 0⟩], observers := [historyObserver],
         file := none },
        .error (.valueError "Division by zero is not allowed.")) :=
  C2_divide_by_zero_appends_then_raises
    { history := [], observers := [historyObserver], file := none } 10 rfl

/-- C4 (code_bug evidence): a persisted row whose stored operation name does
not resolve is loaded as a record bound to Python `None` (the
missing-operation sentinel), and recomputing that record's result raises
`AttributeError` — a null-reference fault, not a clear `UnknownOperation`
error (no such error exists anywhere in the code). -/
theorem C4_missing_op_recompute_faults :
    CalculatorWithObserver.load_history
        (some [{ Operation := "bogus", Operand1 := 1, Operand2 := 2,
                 Result := 0 }]) =
      [⟨none, 1, 2⟩] ∧
    Calculation.recomputeResult ⟨none, 1, 2⟩ =
      .error (.attributeError "NoneType object has no attribute calculate") := by
  refine ⟨?_, rfl⟩
  have hco : OperationFactory.create_operation (pyLower "bogus") = none := by
    decide
  simp [CalculatorWithObserver.load_history, hco]

/-- C5 (amended): with two subscribed observers, if neither observer's
`update` raises and the record's result recomputes (the loop's logging
interpolation recomputes it after each `update`), both observers are invoked
exactly once in subscription order with no error.  But the loop has no
per-observer isolation: if the first observer raises, the second is never
invoked and the exception propagates out of `perform_operation`, aborting it
(the record stays appended, the save step is skipped, and the caller gets the
observer's error); and if the record's result does not recompute, the logging
interpolation raises right after the first observer's `update`, so the second
observer is again never invoked. -/
theorem C5_observer_failure_aborts (o1 o2 : Observer) (c : Calculation) :
    (∀ r, o1.update c = .ok () → o2.update c = .ok () →
      c.recomputeResult = .ok r →
      CalculatorWithObserver.notify_observers [o1, o2] c =
        ([o1.id, o2.id], none)) ∧
    (∀ e, o1.update c = .error e →
      CalculatorWithObserver.notify_observers [o1, o2] c =
        ([o1.id], some e)) ∧
    (∀ e, o1.update c = .ok () → c.recomputeResult = .error e →
      CalculatorWithObserver.notify_observers [o1, o2] c =
        ([o1.id], some e)) ∧
    (∀ (s : CalcState) (op : Op) (a b : ℚ) (e : PyError),
      s.observers = [o1, o2] →
      o1.update ⟨some op, a, b⟩ = .error e →
      CalculatorWithObserver.perform_operation s op a b =
        ({ s with history := s.history ++ [⟨some op, a, b⟩] }, .error e)) := by
  refine ⟨fun r h1 h2 hr => ?_, fun e h1 => ?_, fun e h1 hr => ?_,
          fun s op a b e hobs h1 => ?_⟩
  · simp [CalculatorWithObserver.notify_observers, h1, h2, hr]
  · simp [CalculatorWithObserver.notify_observers, h1]
  · simp [CalculatorWithObserver.notify_observers, h1, hr]
  · simp [CalculatorWithObserver.perform_operation,
          CalculatorWithObserver.notify_observers, hobs, h1]

/-- C5 counterexample to the claim as stated: with a first observer that
raises and a benign second observer, only the first is invoked (the invoked
trace is `[1]`, not `[1, 2]`), and the calculator operation is aborted with
the observer's error instead of completing. -/
theorem C5_counterexample :
    CalculatorWithObserver.notify_observers [obsRaising, obsBenign]
        ⟨some .addition, 1, 2⟩ =
      ([1], some (.valueError "observer failure")) ∧
    (CalculatorWithObserver.perform_operation
        { history := [], observers := [obsRaising, obsBenign], file := none }
        .addition 1 2).2 =
      .error (.valueError "observer failure") := by
  constructor <;>
    simp [CalculatorWithObserver.notify_observers,
          CalculatorWithObserver.perform_operation, obsRaising, obsBenign]

/-- Witness for C5's amended theorem: all three notification branches
instantiated with concrete observers — two benign observers on a recomputable
record (both invoked), a raising first observer (second never invoked), and
two benign observers on a divide-by-zero record, where the logging
interpolation raises after the first observer. -/
theorem C5_witness :
    CalculatorWithObserver.notify_observers [obsBenign, obsBenign2]
        ⟨some .addition, 1, 2⟩ = ([2, 3], none) ∧
    CalculatorWithObserver.notify_observers [obsRaising, obsBenign]
        ⟨some .addition, 1, 2⟩ =
      ([1], some (.valueError "observer failure")) ∧
    CalculatorWithObserver.notify_observers [obsBenign, obsBenign2]
        ⟨some .division, 1, 0⟩ =
      ([2], some (.valueError "Division by zero is not allowed.")) :=
  ⟨(C5_observer_failure_aborts obsBenign obsBenign2 _).1 (1 + 2) rfl rfl rfl,
   (C5_observer_failure_aborts obsRaising obsBenign _).2.1 _ rfl,
   (C5_observer_failure_aborts obsBenign obsBenign2 _).2.2.1 _ rfl
     (by simp [Calculation.recomputeResult, Op.calculate, Op.execute])⟩

/-- C6: for all rational operands `a`, `b`, each of add, subtract and
multiply returns the mathematically correct result (`a+b`, `a-b`, `a*b`) and
appends exactly one record to the history, under the REPL's observer
configuration and provided the existing history is serializable (its records
all recompute — true of every history the REPL itself can build). -/
theorem C6_basic_ops_correct (s : CalcState) (a b : ℚ) (rows : List Row)
    (hobs : s.observers = [historyObserver])
    (hsave : saveRows s.history = .ok rows) :
    ((CalculatorWithObserver.perform_operation s .addition a b).2 =
        .ok (a + b) ∧
      (CalculatorWithObserver.perform_operation s .addition a b).1.history =
        s.history ++ [⟨some .addition, a, b⟩]) ∧
    ((CalculatorWithObserver.perform_operation s .subtraction a b).2 =
        .ok (a - b) ∧
      (CalculatorWithObserver.perform_operation s .subtraction a b).1.history =
        s.history ++ [⟨some .subtraction, a, b⟩]) ∧
    ((CalculatorWithObserver.perform_operation s .multiplication a b).2 =
        .ok (a * b) ∧
      (CalculatorWithObserver.perform_operation s .multiplication a b).1.history =
        s.history ++ [⟨some .multiplication, a, b⟩]) := by
  have ha := perform_ok s .addition a b (a + b) rows hobs hsave rfl
  have hs := perform_ok s .subtraction a b (a - b) rows hobs hsave rfl
  have hm := perform_ok s .multiplication a b (a * b) rows hobs hsave rfl
  refine ⟨⟨?_, ?_⟩, ⟨?_, ?_⟩, ⟨?_, ?_⟩⟩ <;> simp [ha, hs, hm]

/-- Witness for C6 at `a = 2`, `b = 3` on a fresh calculator: the spec's own
example scenario, `perform("add", 2, 3)` yields `5` and history length 1. -/
theorem C6_witness :
    (CalculatorWithObserver.perform_operation
        { history := [], observers := [historyObserver], file := none }
        .addition 2 3).2 = .ok 5 ∧
    (CalculatorWithObserver.perform_operation
        { history := [], observers := [historyObserver], file := none }
        .addition 2 3).1.history = [⟨some .addition, 2, 3⟩] := by
  have h := C6_basic_ops_correct
    { history := [], observers := [historyObserver], file := none }
    2 3 [] rfl rfl
  constructor
  · rw [h.1.1]; norm_num
  · rw [h.1.2]; rfl

/-- C9: write-through.  Whenever `perform_operation` succeeds, the durable
file afterwards is exactly the serialization of the in-memory history; and
after the REPL's `clear` command (clear then save), the in-memory history is
empty and the durable file holds exactly the empty row list. -/
theorem C9_write_through :
    (∀ (s : CalcState) (op : Op) (a b : ℚ) (s' : CalcState) (r : ℚ),
      CalculatorWithObserver.perform_operation s op a b = (s', .ok r) →
      ∃ rows, saveRows s'.history = .ok rows ∧ s'.file = some rows) ∧
    (∀ (s s' : CalcState), replClear s = .ok s' →
      s'.history = [] ∧ s'.file = some []) := by
  constructor
  · intro s op a b s' r h
    obtain ⟨rows, hrows, hs'⟩ := save_history_ok (perform_ok_inv h)
    subst hs'
    exact ⟨rows, hrows, rfl⟩
  · intro s s' h
    unfold replClear CalculatorWithObserver.save_history at h
    simp only [saveRows] at h
    cases h
    exact ⟨rfl, rfl⟩

/-- Witness for C9: the perform branch at `add 2 3` on a fresh calculator and
the clear branch on a calculator holding one (even unserializable) record. -/
theorem C9_witness :
    (∃ rows,
      saveRows ((CalculatorWithObserver.perform_operation
          { history := [], observers := [historyObserver], file := none }
          .addition 2 3).1).history = .ok rows ∧
      ((CalculatorWithObserver.perform_operation
          { history := [], observers := [historyObserver], file := none }
          .addition 2 3).1).file = some rows) ∧
    (({ history := [], observers := [historyObserver],
        file := some [] } : CalcState).history = [] ∧
      ({ history := [], observers := [historyObserver],
         file := some [] } : CalcState).file = some []) := by
  constructor
  · refine C9_write_through.1
      { history := [], observers := [historyObserver], file := none }
      .addition 2 3 _ (2 + 3) ?_
    have hp := perform_ok
      { history := [], observers := [historyObserver], file := none }
      .addition 2 3 (2 + 3) [] rfl rfl rfl
    rw [hp]
  · exact C9_write_through.2
      { history := [Calculation.mk (some Op.division) 1 0],
        observers := [historyObserver], file := none }
      { history := [], observers := [historyObserver], file := some [] }
      (by rfl)

end Midtermcalc
